import Mathlib

/-!
Verification of the PRS stack allocator (`src/prs/alloc/stack.c`).

The allocator is stateless: every operation is a straight-line computation over
machine integers (`prs_size_t` / `prs_uintptr_t`) followed by calls to the
platform virtual-memory primitives.  We embed each operation as a pure Lean
function over `Nat`, with the machine wrap-around made explicit (`wadd`, `wsub`,
`wmul` compute modulo `2 ^ 64`, the pointer width of the modelled 64-bit
configuration).  The outcome of the platform reservation call
`prs_pal_mem_map` is an `Option Nat` input (the base address, or `none` on
failure), output parameters are threaded through explicitly (the function
receives the prior slot content and returns the final one), and the platform
memory calls performed are collected in an explicit trace (`List MemOp`).

Platform branching (`PRS_PAL_OS == PRS_PAL_OS_WINDOWS` versus the Linux
`#else` branches) is embedded as a `PalOS` parameter.
-/

set_option autoImplicit false

namespace PrsStack

/-- Number of values of `prs_uintptr_t` / `prs_size_t` in the modelled 64-bit
configuration: machine arithmetic wraps modulo `W`. -/
def W : Nat := 2 ^ 64

/-- Machine addition of two `prs_uintptr_t` / `prs_size_t` values. -/
def wadd (a b : Nat) : Nat := (a + b) % W

/-- Machine subtraction of two `prs_uintptr_t` / `prs_size_t` values
(two's-complement wrap-around: for `b ≤ a < W` this is plain subtraction). -/
def wsub (a b : Nat) : Nat := (a + (W - b % W)) % W

/-- Machine multiplication of two `prs_size_t` values. -/
def wmul (a b : Nat) : Nat := (a * b) % W

/-- The platform selector `PRS_PAL_OS`: the code has two branches,
`PRS_PAL_OS_WINDOWS` (guard-page platform) and the `#else` branch
(Linux, alternate-handler-stack platform). -/
inductive PalOS where
  | windows
  | linux
deriving DecidableEq, Repr

/-- `PRS_STACK_EXTRA_PAGES`: 3 on Windows, 0 otherwise (stack.c lines 65-69). -/
def PRS_STACK_EXTRA_PAGES : PalOS → Nat
  | .windows => 3
  | .linux => 0

/-- Protection flag set passed to `prs_pal_mem_commit`
(`PRS_PAL_MEM_FLAG_READ | PRS_PAL_MEM_FLAG_WRITE`, optionally
`PRS_PAL_MEM_FLAG_GUARD`). -/
structure MemFlags where
  read : Bool
  write : Bool
  guard : Bool
deriving DecidableEq, Repr

/-- `PRS_PAL_MEM_FLAG_READ | PRS_PAL_MEM_FLAG_WRITE`. -/
def rwFlags : MemFlags := ⟨true, true, false⟩

/-- `PRS_PAL_MEM_FLAG_GUARD | PRS_PAL_MEM_FLAG_READ | PRS_PAL_MEM_FLAG_WRITE`. -/
def rwGuardFlags : MemFlags := ⟨true, true, true⟩

/-- A platform virtual-memory operation performed by the allocator.
`map` records a successful `prs_pal_mem_map` reservation (base address and
size); `commit` records a `prs_pal_mem_commit` call; `unmap` records a
`prs_pal_mem_unmap` call. -/
inductive MemOp where
  | map (addr : Nat) (size : Nat)
  | commit (addr : Nat) (size : Nat) (flags : MemFlags)
  | unmap (addr : Nat) (size : Nat)
deriving DecidableEq, Repr

/-- Modelled from the spec: `prs_bitops_align_size` (the alignment collaborator
from `prs/pal/bitops.h`, whose source is not in the snapshot) rounds a byte
count up to the next multiple of the page size. -/
def prs_bitops_align_size (size pageSize : Nat) : Nat :=
  ((size + pageSize - 1) / pageSize) * pageSize

/-- Shallow embedding of `prs_stack_create` (stack.c lines 83-121).

Parameters: the platform branch `os`, the system page size
(`prs_pal_os_get_page_size()`), the ceiling `PRS_MAX_STACK_SIZE`
(`maxStackSize`), the outcome `memMap` of the reservation call
`prs_pal_mem_map(PRS_MAX_STACK_SIZE, 0)` (`none` = reservation failure), the
requested `size`, and the prior content of the output slot `*available_size`.

Returns the returned stack pointer (`none` models the C `return 0`), the final
content of the output slot, and the trace of platform memory operations, in
program order.  The `PRS_PRECONDITION(size > 0)` is a caller obligation and
appears as a hypothesis of the theorems, not in the definition. -/
def prs_stack_create (os : PalOS) (pageSize maxStackSize : Nat)
    (memMap : Option Nat) (size : Nat) (available_size : Nat) :
    Option Nat × Nat × List MemOp :=
  let aligned_size := prs_bitops_align_size size pageSize
  if aligned_size > maxStackSize then
    (none, available_size, [])
  else
    match memMap with
    | none => (none, available_size, [])
    | some stack_bottom =>
      let protected_size := wsub maxStackSize aligned_size
      let stack_limit := wadd stack_bottom protected_size
      match os with
      | .windows =>
        let extra_size := wmul pageSize (1 + PRS_STACK_EXTRA_PAGES .windows)
        if aligned_size > wsub maxStackSize extra_size then
          (none, available_size, [MemOp.map stack_bottom maxStackSize])
        else
          let stack_extra := wsub stack_limit extra_size
          let stack_guard := wsub stack_limit pageSize
          let stack := wadd stack_bottom maxStackSize
          (some stack, aligned_size,
            [MemOp.map stack_bottom maxStackSize,
             MemOp.commit stack_extra (wmul pageSize (PRS_STACK_EXTRA_PAGES .windows)) rwFlags,
             MemOp.commit stack_guard pageSize rwGuardFlags,
             MemOp.commit stack_limit aligned_size rwFlags])
      | .linux =>
        let stack := wadd stack_bottom maxStackSize
        (some stack, aligned_size,
          [MemOp.map stack_bottom maxStackSize,
           MemOp.commit stack_limit aligned_size rwFlags])

/-- Shallow embedding of `prs_stack_destroy` (stack.c lines 129-133): recompute
`stack_bottom = stack - PRS_MAX_STACK_SIZE` and unmap the whole range. -/
def prs_stack_destroy (maxStackSize stack : Nat) : List MemOp :=
  let stack_bottom := wsub stack maxStackSize
  [MemOp.unmap stack_bottom maxStackSize]

/-- The `required_size` of the alternate-handler-stack growth path
(stack.c line 160): machine subtraction `stack - failed_ptr`. -/
def linux_required_size (stack failed_ptr : Nat) : Nat := wsub stack failed_ptr

/-- Shallow embedding of `prs_stack_grow` (stack.c lines 151-190).

`new_size` is the prior content of the output slot `*new_size`.  Returns the
`prs_bool_t` result (`true` = `PRS_TRUE`), the final slot content, and the
trace of commit operations, in program order.  The Linux branch computes (and
asserts about) `required_size = stack - failed_ptr`; the `PRS_ASSERT` is a
caller obligation treated in theorem `C9_linux_grow_assert_valid`. -/
def prs_stack_grow (os : PalOS) (pageSize maxStackSize stack old_size failed_ptr : Nat)
    (new_size : Nat) : Bool × Nat × List MemOp :=
  match os with
  | .windows =>
    let grow_size := wmul (1 + PRS_STACK_EXTRA_PAGES .windows) pageSize
    let aligned_new_size := wadd old_size grow_size
    if aligned_new_size > maxStackSize then
      (false, new_size, [])
    else
      let stack_bottom := wsub stack maxStackSize
      let protected_size := wsub maxStackSize aligned_new_size
      let stack_limit := wadd stack_bottom protected_size
      if aligned_new_size > wsub maxStackSize grow_size then
        (false, new_size, [])
      else
        let stack_extra := wsub stack_limit grow_size
        let stack_guard := wsub stack_limit pageSize
        (true, aligned_new_size,
          [MemOp.commit stack_extra (wmul pageSize (PRS_STACK_EXTRA_PAGES .windows)) rwFlags,
           MemOp.commit stack_guard pageSize rwGuardFlags,
           MemOp.commit stack_limit grow_size rwFlags])
  | .linux =>
    let required_size := linux_required_size stack failed_ptr
    let grow_size := prs_bitops_align_size required_size pageSize
    let aligned_new_size := prs_bitops_align_size required_size pageSize
    if aligned_new_size > maxStackSize then
      (false, new_size, [])
    else
      let stack_bottom := wsub stack maxStackSize
      let protected_size := wsub maxStackSize aligned_new_size
      let stack_limit := wadd stack_bottom protected_size
      (true, aligned_new_size,
        [MemOp.commit stack_limit grow_size rwFlags])

/-- Shallow embedding of `prs_stack_address_in_range` (stack.c lines 200-206):
`ptr >= start && ptr < end` with `start = stack - PRS_MAX_STACK_SIZE` (machine
subtraction) and `end = stack`. -/
def prs_stack_address_in_range (maxStackSize stack address : Nat) : Bool :=
  let ptr := address
  let start := wsub stack maxStackSize
  let stop := stack
  decide (start ≤ ptr) && decide (ptr < stop)

/-! ### Arithmetic helper lemmas -/

theorem wadd_eq_of_lt {a b : Nat} (h : a + b < W) : wadd a b = a + b :=
  Nat.mod_eq_of_lt h

theorem wsub_eq_of_le {a b : Nat} (hb : b ≤ a) (ha : a < W) : wsub a b = a - b := by
  have hbW : b < W := lt_of_le_of_lt hb ha
  unfold wsub
  rw [Nat.mod_eq_of_lt hbW]
  have h1 : a + (W - b) = (a - b) + W := by omega
  rw [h1, Nat.add_mod_right, Nat.mod_eq_of_lt (by omega)]

theorem wmul_eq_of_lt {a b : Nat} (h : a * b < W) : wmul a b = a * b :=
  Nat.mod_eq_of_lt h

theorem align_ge (s p : Nat) (hp : 0 < p) : s ≤ prs_bitops_align_size s p := by
  unfold prs_bitops_align_size
  rw [Nat.mul_comm]
  have h := Nat.div_add_mod (s + p - 1) p
  have h2 : (s + p - 1) % p < p := Nat.mod_lt _ hp
  omega

theorem align_dvd (s p : Nat) : p ∣ prs_bitops_align_size s p :=
  dvd_mul_left p ((s + p - 1) / p)

theorem align_pos {s p : Nat} (hs : 0 < s) (hp : 0 < p) :
    0 < prs_bitops_align_size s p :=
  lt_of_lt_of_le hs (align_ge s p hp)

/-- Closed form of a successful creation on the alternate-handler-stack
platform. -/
theorem create_linux_success (pageSize maxStackSize b s slot : Nat)
    (hceil : prs_bitops_align_size s pageSize ≤ maxStackSize)
    (hb : b + maxStackSize < W) :
    prs_stack_create PalOS.linux pageSize maxStackSize (some b) s slot =
      (some (b + maxStackSize), prs_bitops_align_size s pageSize,
        [MemOp.map b maxStackSize,
         MemOp.commit (b + (maxStackSize - prs_bitops_align_size s pageSize))
           (prs_bitops_align_size s pageSize) rwFlags]) := by
  have hmaxW : maxStackSize < W := by omega
  have h1 : wsub maxStackSize (prs_bitops_align_size s pageSize)
      = maxStackSize - prs_bitops_align_size s pageSize :=
    wsub_eq_of_le hceil hmaxW
  have h2 : wadd b (maxStackSize - prs_bitops_align_size s pageSize)
      = b + (maxStackSize - prs_bitops_align_size s pageSize) :=
    wadd_eq_of_lt (by omega)
  have h3 : wadd b maxStackSize = b + maxStackSize := wadd_eq_of_lt hb
  simp only [prs_stack_create]
  rw [if_neg (by omega), h1, h2, h3]

/-- Closed form of a successful creation on the guard-page platform. -/
theorem create_windows_success (pageSize maxStackSize b s slot : Nat)
    (hp : 0 < pageSize) (hs : 0 < s)
    (hwin : prs_bitops_align_size s pageSize ≤
      maxStackSize - pageSize * (1 + PRS_STACK_EXTRA_PAGES PalOS.windows))
    (hb : b + maxStackSize < W) :
    prs_stack_create PalOS.windows pageSize maxStackSize (some b) s slot =
      (some (b + maxStackSize), prs_bitops_align_size s pageSize,
        [MemOp.map b maxStackSize,
         MemOp.commit
           (b + (maxStackSize - prs_bitops_align_size s pageSize)
              - pageSize * (1 + PRS_STACK_EXTRA_PAGES PalOS.windows))
           (pageSize * PRS_STACK_EXTRA_PAGES PalOS.windows) rwFlags,
         MemOp.commit
           (b + (maxStackSize - prs_bitops_align_size s pageSize) - pageSize)
           pageSize rwGuardFlags,
         MemOp.commit (b + (maxStackSize - prs_bitops_align_size s pageSize))
           (prs_bitops_align_size s pageSize) rwFlags]) := by
  have hA : 0 < prs_bitops_align_size s pageSize := align_pos hs hp
  have hmaxW : maxStackSize < W := by omega
  simp only [PRS_STACK_EXTRA_PAGES] at hwin ⊢
  have h4p : pageSize * (1 + 3) ≤ maxStackSize := by omega
  have hceil : prs_bitops_align_size s pageSize ≤ maxStackSize := by omega
  have hm1 : wmul pageSize (1 + 3) = pageSize * (1 + 3) :=
    wmul_eq_of_lt (by omega)
  have hs1 : wsub maxStackSize (pageSize * (1 + 3))
      = maxStackSize - pageSize * (1 + 3) := wsub_eq_of_le h4p hmaxW
  have hs2 : wsub maxStackSize (prs_bitops_align_size s pageSize)
      = maxStackSize - prs_bitops_align_size s pageSize := wsub_eq_of_le hceil hmaxW
  have ha1 : wadd b (maxStackSize - prs_bitops_align_size s pageSize)
      = b + (maxStackSize - prs_bitops_align_size s pageSize) :=
    wadd_eq_of_lt (by omega)
  have hlim4 : pageSize * (1 + 3)
      ≤ b + (maxStackSize - prs_bitops_align_size s pageSize) := by omega
  have hs3 : wsub (b + (maxStackSize - prs_bitops_align_size s pageSize))
        (pageSize * (1 + 3))
      = b + (maxStackSize - prs_bitops_align_size s pageSize)
          - pageSize * (1 + 3) := wsub_eq_of_le hlim4 (by omega)
  have hs4 : wsub (b + (maxStackSize - prs_bitops_align_size s pageSize)) pageSize
      = b + (maxStackSize - prs_bitops_align_size s pageSize) - pageSize :=
    wsub_eq_of_le (by omega) (by omega)
  have hm2 : wmul pageSize 3 = pageSize * 3 := wmul_eq_of_lt (by omega)
  have ha2 : wadd b maxStackSize = b + maxStackSize := wadd_eq_of_lt hb
  simp only [prs_stack_create, PRS_STACK_EXTRA_PAGES]
  rw [if_neg (by omega), hm1, hs1, if_neg (by omega), hs2, ha1, hs3, hs4, hm2, ha2]

/-- Grow on the guard-page platform, ceiling check taken (stack.c line 166). -/
theorem grow_windows_fail_low (pageSize maxStackSize stack old_size failed_ptr slot : Nat)
    (h1 : wadd old_size (wmul (1 + PRS_STACK_EXTRA_PAGES PalOS.windows) pageSize)
      > maxStackSize) :
    prs_stack_grow PalOS.windows pageSize maxStackSize stack old_size failed_ptr slot =
      (false, slot, []) := by
  simp only [prs_stack_grow]
  rw [if_pos h1]

/-- Grow on the guard-page platform, no-room check taken (stack.c line 175). -/
theorem grow_windows_fail_room (pageSize maxStackSize stack old_size failed_ptr slot : Nat)
    (h1 : ¬ wadd old_size (wmul (1 + PRS_STACK_EXTRA_PAGES PalOS.windows) pageSize)
      > maxStackSize)
    (h2 : wadd old_size (wmul (1 + PRS_STACK_EXTRA_PAGES PalOS.windows) pageSize)
      > wsub maxStackSize (wmul (1 + PRS_STACK_EXTRA_PAGES PalOS.windows) pageSize)) :
    prs_stack_grow PalOS.windows pageSize maxStackSize stack old_size failed_ptr slot =
      (false, slot, []) := by
  simp only [prs_stack_grow]
  rw [if_neg h1, if_pos h2]

/-- Closed form of a successful grow on the guard-page platform. -/
theorem grow_windows_success (pageSize maxStackSize stack old_size failed_ptr slot : Nat)
    (h1 : ¬ wadd old_size (wmul (1 + PRS_STACK_EXTRA_PAGES PalOS.windows) pageSize)
      > maxStackSize)
    (h2 : ¬ wadd old_size (wmul (1 + PRS_STACK_EXTRA_PAGES PalOS.windows) pageSize)
      > wsub maxStackSize (wmul (1 + PRS_STACK_EXTRA_PAGES PalOS.windows) pageSize)) :
    prs_stack_grow PalOS.windows pageSize maxStackSize stack old_size failed_ptr slot =
      (true, wadd old_size (wmul (1 + PRS_STACK_EXTRA_PAGES PalOS.windows) pageSize),
        let grow_size := wmul (1 + PRS_STACK_EXTRA_PAGES PalOS.windows) pageSize
        let aligned_new_size := wadd old_size grow_size
        let stack_bottom := wsub stack maxStackSize
        let protected_size := wsub maxStackSize aligned_new_size
        let stack_limit := wadd stack_bottom protected_size
        let stack_extra := wsub stack_limit grow_size
        let stack_guard := wsub stack_limit pageSize
        [MemOp.commit stack_extra (wmul pageSize (PRS_STACK_EXTRA_PAGES PalOS.windows)) rwFlags,
         MemOp.commit stack_guard pageSize rwGuardFlags,
         MemOp.commit stack_limit grow_size rwFlags]) := by
  simp only [prs_stack_grow]
  rw [if_neg h1, if_neg h2]

/-- Grow on the alternate-handler-stack platform, ceiling check taken. -/
theorem grow_linux_fail (pageSize maxStackSize stack old_size failed_ptr slot : Nat)
    (h1 : prs_bitops_align_size (linux_required_size stack failed_ptr) pageSize
      > maxStackSize) :
    prs_stack_grow PalOS.linux pageSize maxStackSize stack old_size failed_ptr slot =
      (false, slot, []) := by
  simp only [prs_stack_grow]
  rw [if_pos h1]

/-- Closed form of a successful grow on the alternate-handler-stack platform. -/
theorem grow_linux_success (pageSize maxStackSize stack old_size failed_ptr slot : Nat)
    (h1 : ¬ prs_bitops_align_size (linux_required_size stack failed_ptr) pageSize
      > maxStackSize) :
    prs_stack_grow PalOS.linux pageSize maxStackSize stack old_size failed_ptr slot =
      (true, prs_bitops_align_size (linux_required_size stack failed_ptr) pageSize,
        [MemOp.commit
          (wadd (wsub stack maxStackSize)
            (wsub maxStackSize
              (prs_bitops_align_size (linux_required_size stack failed_ptr) pageSize)))
          (prs_bitops_align_size (linux_required_size stack failed_ptr) pageSize)
          rwFlags]) := by
  simp only [prs_stack_grow]
  rw [if_neg h1]

/-- Characterisation of `prs_stack_address_in_range` for any stack value in whose
range the machine subtraction does not wrap (true of every created stack, whose
value is a non-null reservation base plus the ceiling). -/
theorem address_in_range_iff (maxStackSize stack address : Nat)
    (hle : maxStackSize ≤ stack) (hst : stack < W) :
    prs_stack_address_in_range maxStackSize stack address = true ↔
      stack - maxStackSize ≤ address ∧ address < stack := by
  unfold prs_stack_address_in_range
  rw [wsub_eq_of_le hle hst]
  simp only [Bool.and_eq_true, decide_eq_true_eq]

/-! ### Claim theorems -/

/-- Claim C3: `prs_stack_address_in_range stack address` decides membership of
`address` in the half-open interval `[stack - PRS_MAX_STACK_SIZE, stack)`; in
particular it is true at `stack - 1` and at `stack - PRS_MAX_STACK_SIZE`, and
false at `stack` and at `stack - PRS_MAX_STACK_SIZE - 1`.  The hypotheses
`maxStackSize < stack < W` hold for every stack returned by
`prs_stack_create` (its value is a non-null reservation base plus the
ceiling). -/
theorem C3_address_in_range_spec (maxStackSize stack address : Nat)
    (hmax : 0 < maxStackSize) (hlt : maxStackSize < stack) (hst : stack < W) :
    (prs_stack_address_in_range maxStackSize stack address = true ↔
      stack - maxStackSize ≤ address ∧ address < stack) ∧
    prs_stack_address_in_range maxStackSize stack (stack - 1) = true ∧
    prs_stack_address_in_range maxStackSize stack (stack - maxStackSize) = true ∧
    prs_stack_address_in_range maxStackSize stack stack = false ∧
    prs_stack_address_in_range maxStackSize stack (stack - maxStackSize - 1) = false := by
  have hle : maxStackSize ≤ stack := le_of_lt hlt
  refine ⟨address_in_range_iff maxStackSize stack address hle hst, ?_, ?_, ?_, ?_⟩
  · exact (address_in_range_iff maxStackSize stack _ hle hst).mpr ⟨by omega, by omega⟩
  · exact (address_in_range_iff maxStackSize stack _ hle hst).mpr ⟨by omega, by omega⟩
  · have h := address_in_range_iff maxStackSize stack stack hle hst
    cases hval : prs_stack_address_in_range maxStackSize stack stack
    · rfl
    · exact absurd (h.mp hval).2 (by omega)
  · have h := address_in_range_iff maxStackSize stack
      (stack - maxStackSize - 1) hle hst
    cases hval : prs_stack_address_in_range maxStackSize stack (stack - maxStackSize - 1)
    · rfl
    · exact absurd (h.mp hval).1 (by omega)

/-- Claim C3 witness. -/
theorem C3_address_in_range_spec_witness :
    (prs_stack_address_in_range 1048576 1073741824 1073741000 = true ↔
      1073741824 - 1048576 ≤ 1073741000 ∧ 1073741000 < 1073741824) ∧
    prs_stack_address_in_range 1048576 1073741824 (1073741824 - 1) = true ∧
    prs_stack_address_in_range 1048576 1073741824 (1073741824 - 1048576) = true ∧
    prs_stack_address_in_range 1048576 1073741824 1073741824 = false ∧
    prs_stack_address_in_range 1048576 1073741824 (1073741824 - 1048576 - 1) = false :=
  C3_address_in_range_spec 1048576 1073741824 1073741000 (by decide) (by decide)
    (by decide)

/-- Claim C9: on the alternate-handler-stack platform, the `PRS_ASSERT` at stack.c
line 162 (`required_size > old_size`) is valid whenever `failed_ptr` lies in
the reserved range and strictly below the committed region: the assertion
branch cannot fire. -/
theorem C9_linux_grow_assert_valid (maxStackSize stack old_size failed_ptr : Nat)
    (hst : stack < W)
    (hrange : stack - maxStackSize ≤ failed_ptr)
    (hbelow : failed_ptr < stack - old_size) :
    old_size < linux_required_size stack failed_ptr := by
  have hfp : failed_ptr ≤ stack := by omega
  unfold linux_required_size
  rw [wsub_eq_of_le hfp hst]
  omega

/-- Claim C9 witness. -/
theorem C9_linux_grow_assert_valid_witness :
    (1073741824 : Nat) < W ∧
    (1073741824 : Nat) - 1048576 ≤ 1073736824 ∧
    (1073736824 : Nat) < 1073741824 - 4096 ∧
    (4096 : Nat) < linux_required_size 1073741824 1073736824 :=
  ⟨by decide, by decide, by decide,
    C9_linux_grow_assert_valid 1048576 1073741824 4096 1073736824 (by decide)
      (by decide) (by decide)⟩

/-- Claim C10: on every failure path the output slot keeps its prior content:
`prs_stack_create` leaves `*available_size` unchanged whenever it returns
null, and `prs_stack_grow` leaves `*new_size` unchanged whenever it returns
`PRS_FALSE`. -/
theorem C10_outputs_unwritten_on_failure (os : PalOS)
    (pageSize maxStackSize : Nat) (memMap : Option Nat)
    (size slot stack old_size failed_ptr gslot : Nat) :
    ((prs_stack_create os pageSize maxStackSize memMap size slot).1 = none →
      (prs_stack_create os pageSize maxStackSize memMap size slot).2.1 = slot) ∧
    ((prs_stack_grow os pageSize maxStackSize stack old_size failed_ptr gslot).1 = false →
      (prs_stack_grow os pageSize maxStackSize stack old_size failed_ptr gslot).2.1 = gslot) := by
  constructor
  · intro h
    cases os <;> cases memMap <;>
      simp only [prs_stack_create] at h ⊢ <;> split_ifs at h ⊢ <;> simp_all
  · intro h
    cases os <;>
      simp only [prs_stack_grow] at h ⊢ <;> split_ifs at h ⊢ <;> simp_all

/-- Claim C10 witness: a reservation failure leaves the `*available_size` slot at its
prior content 7, and an over-ceiling grow leaves the `*new_size` slot at its
prior content 7. -/
theorem C10_outputs_unwritten_on_failure_witness :
    (prs_stack_create PalOS.linux 4096 8192 none 1 7).2.1 = 7 ∧
    (prs_stack_grow PalOS.linux 4096 8192 1073741824 4096 1073732824 7).2.1 = 7 :=
  ⟨(C10_outputs_unwritten_on_failure PalOS.linux 4096 8192 none 1 7 1073741824 4096
      1073732824 7).1 (by decide),
   (C10_outputs_unwritten_on_failure PalOS.linux 4096 8192 none 1 7 1073741824 4096
      1073732824 7).2 (by decide)⟩

/-- Claim C4: the claim that every over-ceiling creation failure leaves no
reservation outstanding is violated by the guard-page platform's overhead
check: with page size 4096, ceiling 65536, a successful reservation at base
1000000 and requested size 61440 (aligned size 61440 is within the ceiling but
exceeds the ceiling minus the 16384-byte guard/extra overhead),
`prs_stack_create` returns null while the trace holds the 65536-byte `map`
and no `unmap`: the reservation is leaked. -/
theorem C4_create_windows_leaks_reservation :
    prs_stack_create PalOS.windows 4096 65536 (some 1000000) 61440 7 =
      (none, 7, [MemOp.map 1000000 65536]) := by
  decide

/-- Claim C1: for every requested size `0 < s` whose page-aligned value is within
the ceiling (minus the guard/extra-page overhead on the guard-page platform),
and a successful reservation at base `b`, `prs_stack_create` returns the
stack pointer `b + PRS_MAX_STACK_SIZE` and writes `available_size` equal to
`s` rounded up to the next page multiple, which is at most the ceiling. -/
theorem C1_create_success (os : PalOS) (pageSize maxStackSize b s slot : Nat)
    (hs : 0 < s) (hp : 0 < pageSize)
    (hceil : prs_bitops_align_size s pageSize ≤ maxStackSize)
    (hwin : os = PalOS.windows →
      prs_bitops_align_size s pageSize ≤
        maxStackSize - pageSize * (1 + PRS_STACK_EXTRA_PAGES PalOS.windows))
    (hb : b + maxStackSize < W) :
    (prs_stack_create os pageSize maxStackSize (some b) s slot).1 =
        some (b + maxStackSize) ∧
    (prs_stack_create os pageSize maxStackSize (some b) s slot).2.1 =
        prs_bitops_align_size s pageSize ∧
    prs_bitops_align_size s pageSize ≤ maxStackSize := by
  cases os with
  | windows =>
      rw [create_windows_success pageSize maxStackSize b s slot hp hs (hwin rfl) hb]
      exact ⟨rfl, rfl, hceil⟩
  | linux =>
      rw [create_linux_success pageSize maxStackSize b s slot hceil hb]
      exact ⟨rfl, rfl, hceil⟩

/-- Claim C1 witness: guard-page platform, page size 4096, ceiling 1048576,
reservation base 1073741824, requested size 1. -/
theorem C1_create_success_witness :
    (prs_stack_create PalOS.windows 4096 1048576 (some 1073741824) 1 7).1 =
        some (1073741824 + 1048576) ∧
    (prs_stack_create PalOS.windows 4096 1048576 (some 1073741824) 1 7).2.1 =
        prs_bitops_align_size 1 4096 ∧
    prs_bitops_align_size 1 4096 ≤ 1048576 :=
  C1_create_success PalOS.windows 4096 1048576 1073741824 1 7 (by decide) (by decide)
    (by decide) (fun _ => by decide) (by decide)

/-- Claim C2: a successful grow writes the platform policy size: on the guard-page
platform `new_size = old_size + (1 + PRS_STACK_EXTRA_PAGES) * page_size`,
regardless of `failed_ptr`; on the alternate-handler-stack platform
`new_size = (stack - failed_ptr)` rounded up to the next page boundary. -/
theorem C2_grow_policy (os : PalOS)
    (pageSize maxStackSize stack old_size failed_ptr slot n : Nat) (trace : List MemOp)
    (hof : old_size + (1 + PRS_STACK_EXTRA_PAGES PalOS.windows) * pageSize < W)
    (hfp : failed_ptr ≤ stack) (hst : stack < W)
    (hsucc : prs_stack_grow os pageSize maxStackSize stack old_size failed_ptr slot =
      (true, n, trace)) :
    (os = PalOS.windows →
      n = old_size + (1 + PRS_STACK_EXTRA_PAGES PalOS.windows) * pageSize) ∧
    (os = PalOS.linux →
      n = prs_bitops_align_size (stack - failed_ptr) pageSize) := by
  cases os with
  | windows =>
      refine ⟨fun _ => ?_, fun h => PalOS.noConfusion h⟩
      simp only [PRS_STACK_EXTRA_PAGES] at hof ⊢
      by_cases h1 : wadd old_size
          (wmul (1 + PRS_STACK_EXTRA_PAGES PalOS.windows) pageSize) > maxStackSize
      · rw [grow_windows_fail_low pageSize maxStackSize stack old_size failed_ptr slot h1]
          at hsucc
        have hbad : false = true := congrArg (·.1) hsucc
        exact Bool.noConfusion hbad
      · by_cases h2 : wadd old_size
            (wmul (1 + PRS_STACK_EXTRA_PAGES PalOS.windows) pageSize) >
            wsub maxStackSize (wmul (1 + PRS_STACK_EXTRA_PAGES PalOS.windows) pageSize)
        · rw [grow_windows_fail_room pageSize maxStackSize stack old_size failed_ptr slot
            h1 h2] at hsucc
          have hbad : false = true := congrArg (·.1) hsucc
          exact Bool.noConfusion hbad
        · rw [grow_windows_success pageSize maxStackSize stack old_size failed_ptr slot
            h1 h2] at hsucc
          have hn : wadd old_size
              (wmul (1 + PRS_STACK_EXTRA_PAGES PalOS.windows) pageSize) = n :=
            congrArg (·.2.1) hsucc
          have hm : wmul (1 + PRS_STACK_EXTRA_PAGES PalOS.windows) pageSize
              = (1 + 3) * pageSize := by
            simp only [PRS_STACK_EXTRA_PAGES]
            exact wmul_eq_of_lt (by omega)
          rw [hm, wadd_eq_of_lt (by omega)] at hn
          omega
  | linux =>
      refine ⟨fun h => PalOS.noConfusion h, fun _ => ?_⟩
      by_cases h1 : prs_bitops_align_size (linux_required_size stack failed_ptr) pageSize
          > maxStackSize
      · rw [grow_linux_fail pageSize maxStackSize stack old_size failed_ptr slot h1] at hsucc
        have hbad : false = true := congrArg (·.1) hsucc
        exact Bool.noConfusion hbad
      · rw [grow_linux_success pageSize maxStackSize stack old_size failed_ptr slot h1]
          at hsucc
        have hn : prs_bitops_align_size (linux_required_size stack failed_ptr) pageSize
            = n := congrArg (·.2.1) hsucc
        rw [← hn]
        unfold linux_required_size
        rw [wsub_eq_of_le hfp hst]

/-- Claim C2 witness: alternate-handler-stack platform, fault 5000 bytes below the
top of a stack with 4096 committed bytes. -/
theorem C2_grow_policy_witness :
    (PalOS.linux = PalOS.windows →
      (8192 : Nat) = 4096 + (1 + PRS_STACK_EXTRA_PAGES PalOS.windows) * 4096) ∧
    (PalOS.linux = PalOS.linux →
      (8192 : Nat) = prs_bitops_align_size (1073741824 - 1073736824) 4096) :=
  C2_grow_policy PalOS.linux 4096 1048576 1073741824 4096 1073736824 7 8192
    [MemOp.commit 1073733632 8192 rwFlags] (by decide) (by decide) (by decide) (by decide)

/-- Claim C5: when the computed new size exceeds the ceiling (or, on the guard-page
platform, leaves no room for the extra/guard pages), `prs_stack_grow` returns
`PRS_FALSE`, leaves the output slot unchanged and performs no commit at all. -/
theorem C5_grow_failure_no_commit (os : PalOS)
    (pageSize maxStackSize stack old_size failed_ptr slot : Nat)
    (hof : os = PalOS.windows →
      old_size + (1 + PRS_STACK_EXTRA_PAGES PalOS.windows) * pageSize < W)
    (hgm : os = PalOS.windows →
      (1 + PRS_STACK_EXTRA_PAGES PalOS.windows) * pageSize ≤ maxStackSize)
    (hmaxW : maxStackSize < W)
    (hfp : failed_ptr ≤ stack) (hst : stack < W)
    (hfail : (os = PalOS.windows →
        maxStackSize - (1 + PRS_STACK_EXTRA_PAGES PalOS.windows) * pageSize <
          old_size + (1 + PRS_STACK_EXTRA_PAGES PalOS.windows) * pageSize) ∧
      (os = PalOS.linux →
        maxStackSize < prs_bitops_align_size (stack - failed_ptr) pageSize)) :
    prs_stack_grow os pageSize maxStackSize stack old_size failed_ptr slot =
      (false, slot, []) := by
  cases os with
  | windows =>
      have hofw := hof rfl
      have hgmw := hgm rfl
      have hf := hfail.1 rfl
      simp only [PRS_STACK_EXTRA_PAGES] at hofw hgmw hf
      have hm : wmul (1 + PRS_STACK_EXTRA_PAGES PalOS.windows) pageSize
          = (1 + 3) * pageSize := by
        simp only [PRS_STACK_EXTRA_PAGES]
        exact wmul_eq_of_lt (by omega)
      have hw : wadd old_size ((1 + 3) * pageSize)
          = old_size + (1 + 3) * pageSize := wadd_eq_of_lt (by omega)
      by_cases h1 : wadd old_size
          (wmul (1 + PRS_STACK_EXTRA_PAGES PalOS.windows) pageSize) > maxStackSize
      · exact grow_windows_fail_low pageSize maxStackSize stack old_size failed_ptr slot h1
      · refine grow_windows_fail_room pageSize maxStackSize stack old_size failed_ptr
          slot h1 ?_
        rw [hm, hw] at h1 ⊢
        rw [wsub_eq_of_le hgmw hmaxW]
        omega
  | linux =>
      have hf := hfail.2 rfl
      refine grow_linux_fail pageSize maxStackSize stack old_size failed_ptr slot ?_
      unfold linux_required_size
      rw [wsub_eq_of_le hfp hst]
      omega

/-- Claim C5 witness: alternate-handler-stack platform, ceiling 16384, fault 20000
bytes below the top: the page-aligned required size 20480 exceeds the
ceiling. -/
theorem C5_grow_failure_no_commit_witness :
    prs_stack_grow PalOS.linux 4096 16384 1073741824 4096 1073721824 7 =
      (false, 7, []) :=
  C5_grow_failure_no_commit PalOS.linux 4096 16384 1073741824 4096 1073721824 7
    (fun h => PalOS.noConfusion h) (fun h => PalOS.noConfusion h) (by decide)
    (by decide) (by decide)
    ⟨fun h => PalOS.noConfusion h, fun _ => by decide⟩

/-- Claim C6: a successful grow writes a strictly larger, page-multiple size that is
at most the ceiling (on the guard-page platform given the invariant that
`old_size` is page-aligned; on the alternate-handler-stack platform under the
asserted precondition `stack - failed_ptr > old_size`); hence committed sizes
strictly increase across successful grows and never pass the ceiling. -/
theorem C6_grow_monotone (os : PalOS)
    (pageSize maxStackSize stack old_size failed_ptr slot n : Nat) (trace : List MemOp)
    (hp : 0 < pageSize) (hal : pageSize ∣ old_size)
    (hof : old_size + (1 + PRS_STACK_EXTRA_PAGES PalOS.windows) * pageSize < W)
    (hfp : failed_ptr ≤ stack) (hst : stack < W)
    (hreq : os = PalOS.linux → old_size < stack - failed_ptr)
    (hsucc : prs_stack_grow os pageSize maxStackSize stack old_size failed_ptr slot =
      (true, n, trace)) :
    old_size < n ∧ pageSize ∣ n ∧ n ≤ maxStackSize := by
  cases os with
  | windows =>
      simp only [PRS_STACK_EXTRA_PAGES] at hof
      have hm : wmul (1 + PRS_STACK_EXTRA_PAGES PalOS.windows) pageSize
          = (1 + 3) * pageSize := by
        simp only [PRS_STACK_EXTRA_PAGES]
        exact wmul_eq_of_lt (by omega)
      by_cases h1 : wadd old_size
          (wmul (1 + PRS_STACK_EXTRA_PAGES PalOS.windows) pageSize) > maxStackSize
      · rw [grow_windows_fail_low pageSize maxStackSize stack old_size failed_ptr slot h1]
          at hsucc
        have hbad : false = true := congrArg (·.1) hsucc
        exact Bool.noConfusion hbad
      · by_cases h2 : wadd old_size
            (wmul (1 + PRS_STACK_EXTRA_PAGES PalOS.windows) pageSize) >
            wsub maxStackSize (wmul (1 + PRS_STACK_EXTRA_PAGES PalOS.windows) pageSize)
        · rw [grow_windows_fail_room pageSize maxStackSize stack old_size failed_ptr slot
            h1 h2] at hsucc
          have hbad : false = true := congrArg (·.1) hsucc
          exact Bool.noConfusion hbad
        · rw [grow_windows_success pageSize maxStackSize stack old_size failed_ptr slot
            h1 h2] at hsucc
          have hn : wadd old_size
              (wmul (1 + PRS_STACK_EXTRA_PAGES PalOS.windows) pageSize) = n :=
            congrArg (·.2.1) hsucc
          rw [hm, wadd_eq_of_lt (by omega)] at hn h1
          refine ⟨by omega, ?_, by omega⟩
          rw [← hn]
          exact dvd_add hal (dvd_mul_left pageSize (1 + 3))
  | linux =>
      have hr := hreq rfl
      by_cases h1 : prs_bitops_align_size (linux_required_size stack failed_ptr) pageSize
          > maxStackSize
      · rw [grow_linux_fail pageSize maxStackSize stack old_size failed_ptr slot h1] at hsucc
        have hbad : false = true := congrArg (·.1) hsucc
        exact Bool.noConfusion hbad
      · rw [grow_linux_success pageSize maxStackSize stack old_size failed_ptr slot h1]
          at hsucc
        have hn : prs_bitops_align_size (linux_required_size stack failed_ptr) pageSize
            = n := congrArg (·.2.1) hsucc
        have hreq_eq : linux_required_size stack failed_ptr = stack - failed_ptr := by
          unfold linux_required_size
          exact wsub_eq_of_le hfp hst
        rw [hreq_eq] at hn h1
        have hge := align_ge (stack - failed_ptr) pageSize hp
        refine ⟨by omega, ?_, by omega⟩
        rw [← hn]
        exact align_dvd _ _

/-- Claim C6 witness: alternate-handler-stack platform, growing from 4096 to 8192
within ceiling 1048576. -/
theorem C6_grow_monotone_witness :
    (4096 : Nat) < 8192 ∧ (4096 : Nat) ∣ 8192 ∧ (8192 : Nat) ≤ 1048576 :=
  C6_grow_monotone PalOS.linux 4096 1048576 1073741824 4096 1073736824 7 8192
    [MemOp.commit 1073733632 8192 rwFlags] (by decide) (dvd_refl 4096) (by decide)
    (by decide) (by decide) (fun _ => by decide) (by decide)

/-- Claim C7 (amended): on every successful grow, on the guard-page platform the
trace is the extra-pages commit at `stack - new_size - (1 + extra) * page`, the
guard-page commit immediately below the new limit, and a read/write commit of
exactly the newly-needed range `[stack - new_size, stack - old_size)` of length
`new_size - old_size`; on the alternate-handler-stack platform it is one
read/write commit of the whole new committed region `[stack - new_size, stack)`
of length `new_size`, re-committing the already-committed old pages. -/
theorem C7_grow_commit_layout (os : PalOS)
    (pageSize maxStackSize stack old_size failed_ptr slot n : Nat) (trace : List MemOp)
    (hp : 0 < pageSize)
    (hof : old_size + (1 + PRS_STACK_EXTRA_PAGES PalOS.windows) * pageSize < W)
    (hmax : maxStackSize ≤ stack) (hst : stack < W) (hfp : failed_ptr ≤ stack)
    (hsucc : prs_stack_grow os pageSize maxStackSize stack old_size failed_ptr slot =
      (true, n, trace)) :
    (os = PalOS.windows →
      trace =
        [MemOp.commit
           (stack - n - (1 + PRS_STACK_EXTRA_PAGES PalOS.windows) * pageSize)
           (pageSize * PRS_STACK_EXTRA_PAGES PalOS.windows) rwFlags,
         MemOp.commit (stack - n - pageSize) pageSize rwGuardFlags,
         MemOp.commit (stack - n) (n - old_size) rwFlags]) ∧
    (os = PalOS.linux →
      trace = [MemOp.commit (stack - n) n rwFlags]) := by
  have hmaxW : maxStackSize < W := by omega
  cases os with
  | windows =>
      refine ⟨fun _ => ?_, fun h => PalOS.noConfusion h⟩
      simp only [PRS_STACK_EXTRA_PAGES] at hof ⊢
      by_cases h1 : wadd old_size
          (wmul (1 + PRS_STACK_EXTRA_PAGES PalOS.windows) pageSize) > maxStackSize
      · rw [grow_windows_fail_low pageSize maxStackSize stack old_size failed_ptr slot h1]
          at hsucc
        have hbad : false = true := congrArg (·.1) hsucc
        exact Bool.noConfusion hbad
      · by_cases h2 : wadd old_size
            (wmul (1 + PRS_STACK_EXTRA_PAGES PalOS.windows) pageSize) >
            wsub maxStackSize (wmul (1 + PRS_STACK_EXTRA_PAGES PalOS.windows) pageSize)
        · rw [grow_windows_fail_room pageSize maxStackSize stack old_size failed_ptr slot
            h1 h2] at hsucc
          have hbad : false = true := congrArg (·.1) hsucc
          exact Bool.noConfusion hbad
        · rw [grow_windows_success pageSize maxStackSize stack old_size failed_ptr slot
            h1 h2] at hsucc
          simp only [Prod.mk.injEq, true_and] at hsucc
          obtain ⟨hn, ht⟩ := hsucc
          simp only [PRS_STACK_EXTRA_PAGES] at hn ht h1 h2
          have hm : wmul (1 + 3) pageSize = (1 + 3) * pageSize :=
            wmul_eq_of_lt (by omega)
          have hm3 : wmul pageSize 3 = pageSize * 3 := wmul_eq_of_lt (by omega)
          rw [hm] at hn ht h1 h2
          have hwadd : wadd old_size ((1 + 3) * pageSize)
              = old_size + (1 + 3) * pageSize := wadd_eq_of_lt (by omega)
          rw [hwadd] at hn ht h1 h2
          have h4pm : (1 + 3) * pageSize ≤ maxStackSize := by omega
          rw [wsub_eq_of_le h4pm hmaxW] at h2
          have hnle : old_size + (1 + 3) * pageSize ≤ maxStackSize := by omega
          rw [wsub_eq_of_le hmax hst, wsub_eq_of_le hnle hmaxW] at ht
          have hlim : wadd (stack - maxStackSize)
              (maxStackSize - (old_size + (1 + 3) * pageSize))
              = stack - (old_size + (1 + 3) * pageSize) := by
            rw [wadd_eq_of_lt (by omega)]
            omega
          rw [hlim] at ht
          have hApm : (1 + 3) * pageSize
              ≤ stack - (old_size + (1 + 3) * pageSize) := by omega
          rw [wsub_eq_of_le hApm (by omega), wsub_eq_of_le (by omega) (by omega),
            hm3] at ht
          rw [← ht, ← hn]
          rw [show old_size + (1 + 3) * pageSize - old_size = (1 + 3) * pageSize
            from by omega]
  | linux =>
      refine ⟨fun h => PalOS.noConfusion h, fun _ => ?_⟩
      by_cases h1 : prs_bitops_align_size (linux_required_size stack failed_ptr) pageSize
          > maxStackSize
      · rw [grow_linux_fail pageSize maxStackSize stack old_size failed_ptr slot h1] at hsucc
        have hbad : false = true := congrArg (·.1) hsucc
        exact Bool.noConfusion hbad
      · rw [grow_linux_success pageSize maxStackSize stack old_size failed_ptr slot h1]
          at hsucc
        simp only [Prod.mk.injEq, true_and] at hsucc
        obtain ⟨hn, ht⟩ := hsucc
        have hA : prs_bitops_align_size (linux_required_size stack failed_ptr) pageSize
            ≤ maxStackSize := by omega
        rw [wsub_eq_of_le hmax hst, wsub_eq_of_le hA hmaxW] at ht
        have hlim : wadd (stack - maxStackSize)
            (maxStackSize
              - prs_bitops_align_size (linux_required_size stack failed_ptr) pageSize)
            = stack
              - prs_bitops_align_size (linux_required_size stack failed_ptr) pageSize := by
          rw [wadd_eq_of_lt (by omega)]
          omega
        rw [hlim] at ht
        rw [← ht, ← hn]

/-- Claim C7 amended witness: alternate-handler-stack platform, growing from
4096 to 8192 commits the whole 8192-byte region at `stack - 8192`. -/
theorem C7_grow_commit_layout_witness :
    (PalOS.linux = PalOS.windows →
      [MemOp.commit 1073733632 8192 rwFlags] =
        [MemOp.commit
           (1073741824 - 8192 - (1 + PRS_STACK_EXTRA_PAGES PalOS.windows) * 4096)
           (4096 * PRS_STACK_EXTRA_PAGES PalOS.windows) rwFlags,
         MemOp.commit (1073741824 - 8192 - 4096) 4096 rwGuardFlags,
         MemOp.commit (1073741824 - 8192) (8192 - 4096) rwFlags]) ∧
    (PalOS.linux = PalOS.linux →
      [MemOp.commit 1073733632 8192 rwFlags] =
        [MemOp.commit (1073741824 - 8192) 8192 rwFlags]) :=
  C7_grow_commit_layout PalOS.linux 4096 1048576 1073741824 4096 1073736824 7 8192
    [MemOp.commit 1073733632 8192 rwFlags] (by decide) (by decide) (by decide)
    (by decide) (by decide) (by decide)

/-- Claim C8: for every stack value returned by a successful `prs_stack_create`,
`prs_stack_destroy` recomputes `stack_bottom = stack - PRS_MAX_STACK_SIZE`
(the reservation base) and issues exactly one unmap covering the full
`PRS_MAX_STACK_SIZE`-byte reservation. -/
theorem C8_destroy_unmaps_reservation (os : PalOS)
    (pageSize maxStackSize b s slot st slot2 : Nat) (ops : List MemOp)
    (hb : b + maxStackSize < W)
    (hc : prs_stack_create os pageSize maxStackSize (some b) s slot =
      (some st, slot2, ops)) :
    st - maxStackSize = b ∧
    prs_stack_destroy maxStackSize st = [MemOp.unmap b maxStackSize] := by
  have h1 : (prs_stack_create os pageSize maxStackSize (some b) s slot).1 = some st := by
    rw [hc]
  have hst : st = b + maxStackSize := by
    cases os <;> simp only [prs_stack_create] at h1 <;> split_ifs at h1 <;>
      simp_all [wadd_eq_of_lt hb]
  subst hst
  refine ⟨by omega, ?_⟩
  unfold prs_stack_destroy
  rw [wsub_eq_of_le (by omega) hb, Nat.add_sub_cancel]

/-- Claim C8 witness: destroying the stack created at base 1073741824 with ceiling
1048576 unmaps exactly that full range. -/
theorem C8_destroy_unmaps_reservation_witness :
    (1073741824 + 1048576 : Nat) - 1048576 = 1073741824 ∧
    prs_stack_destroy 1048576 (1073741824 + 1048576) =
      [MemOp.unmap 1073741824 1048576] :=
  C8_destroy_unmaps_reservation PalOS.linux 4096 1048576 1073741824 4096 7
    (1073741824 + 1048576) 4096
    [MemOp.map 1073741824 1048576, MemOp.commit 1074786304 4096 rwFlags]
    (by decide) (by decide)

/-- Claim C7 counterexample: on the alternate-handler-stack platform the commit
issued by a successful grow is not the newly-needed range of length
`new_size - old_size`: growing from `old_size = 4096` to `new_size = 8192`
commits 8192 bytes starting at `stack - 8192`, re-committing the old page,
instead of the claimed `[stack - 8192, stack - 4096)` of length 4096. -/
theorem C7_grow_commit_counterexample :
    (prs_stack_grow PalOS.linux 4096 1048576 1073741824 4096 1073736824 7).1 = true ∧
    (prs_stack_grow PalOS.linux 4096 1048576 1073741824 4096 1073736824 7).2.1 = 8192 ∧
    (prs_stack_grow PalOS.linux 4096 1048576 1073741824 4096 1073736824 7).2.2 ≠
      [MemOp.commit (1073741824 - 8192) (8192 - 4096) rwFlags] := by
  refine ⟨by decide, by decide, by decide⟩

end PrsStack
